import Mathlib

/-!
Shallow embedding of the Mumma Tiffin server (src/index.js): the
access-control / order-lifecycle core. External collaborators (SQLite,
bcrypt, JWT, Express transport) are modelled through the narrow
interfaces the handlers use:

* SQLite tables are Lean lists of row structures; `INSERT` appends,
  `UPDATE ... WHERE id = ?` maps over rows, `ORDER BY` is `List.mergeSort`,
  `SELECT ... WHERE email = ?` on a UNIQUE column is `List.find?`.
* bcrypt is a parameter `vf : String → String → Bool` standing for
  `bcrypt.compare(password, hash)`.
* JWT signing/verification is modelled statelessly: a token is its
  payload (`Claims`), `verifyToken` returns it unchanged; only tokens
  signed by this server within their validity window are representable.
* `new Date().toISOString()` is passed in as a `now : String` argument.
* JavaScript optional / falsy request fields are `Option` values, with
  `none` standing for the falsy cases (absent, null, empty string), so
  `x || d` becomes `x.getD d` and `!x` becomes `x.isNone`.
-/

namespace MummaTiffin

/-- Error taxonomy: each failing handler replies with an HTTP status and
an `error` message, e.g. `res.status(400).json({ error: 'invalid credentials' })`. -/
structure ApiError where
  status : Nat
  error : String
deriving Repr, DecidableEq

/-- JWT payload as produced by `signToken` in index.js.  User and admin
logins sign `{ id, email, role }`; no handler ever puts a `city` key into
the payload, which the `city : Option String` field records as `none`. -/
structure Claims where
  id : Nat
  email : String
  role : String
  city : Option String
deriving Repr, DecidableEq

/-- `jwt.verify` on a token this server signed returns the signed payload
(token validity window and signature checking are the collaborator's
business; forged tokens are not representable in the model). -/
def verifyToken (signed : Claims) : Claims := signed

/-- Row of the `users` table. -/
structure UserRow where
  id : Nat
  email : String
  password_hash : String
  name : String
  created_at : String
deriving Repr, DecidableEq

/-- Row of the `admins` table. -/
structure AdminRow where
  id : Nat
  email : String
  password_hash : String
  name : String
  city : String
  created_at : String
deriving Repr, DecidableEq

/-- Row of the `menu` table.  `active` is the INTEGER column (the code
compares it with `r.active == 1`). -/
structure MenuItem where
  id : String
  meal : String
  name_en : String
  name_hi : String
  price : Int
  description_en : String
  description_hi : String
  city : String
  available_from : String
  available_to : String
  active : Int
deriving Repr, DecidableEq

/-- A cart line as sent in an order request body (only identity and price
matter to the handlers; the snapshot stores it opaquely). -/
structure Item where
  id : String
  price : Int
deriving Repr, DecidableEq

/-- An address object from a request body.  `city : Option String` models
the JavaScript truthiness tests `address.city || 'All'` and
`info.address.city ? ... : 'All'`: `none` covers absent and falsy values. -/
structure Address where
  name : Option String
  line : Option String
  landmark : Option String
  pin : Option String
  city : Option String
deriving Repr, DecidableEq

/-- The structured order snapshot `{ items, address, date, time, meal }`
that `POST /api/orders` serializes into the `info` column. -/
structure Snapshot where
  items : List Item
  address : Address
  date : Option String
  time : Option String
  meal : Option String
deriving Repr, DecidableEq

/-- Parse outcome of the stored `info` text, as observed by
`JSON.parse(r.info || '{}')` in `GET /api/admin/orders`:
* `snapshot s` — the text parses to a well-formed order snapshot;
* `empty` — the stored text is NULL/empty, so `'{}'` is parsed instead
  (an object with no `address`);
* `malformed` — `JSON.parse` throws, landing in the `catch` branch. -/
inductive Info where
  | snapshot (snap : Snapshot)
  | empty
  | malformed
deriving Repr, DecidableEq

/-- Row of the `orders` table. -/
structure OrderRow where
  id : Nat
  user_id : Nat
  total : Int
  info : Info
  status : String
  created_at : String
deriving Repr, DecidableEq

/-- Row of the `notifications` table. -/
structure Notification where
  text : String
  created_at : String
  target_city : String
deriving Repr, DecidableEq

/-- The mutable store as the order endpoints see it: the `orders` and
`notifications` tables (in insertion order; `INSERT` appends) and the
next AUTOINCREMENT order id (`r.lastID` of the insert). -/
structure ServerState where
  orders : List OrderRow
  notifications : List Notification
  nextOrderId : Nat
deriving Repr, DecidableEq

/-- The city-visibility predicate of `GET /api/admin/orders` (line 367):
`admin.city === 'All' || admin.city === city || city === 'All'`. -/
def cityIsVisible (adminCity resourceCity : String) : Bool :=
  adminCity == "All" || adminCity == resourceCity || resourceCity == "All"

/-- The body of the per-row `try`/`catch` in `GET /api/admin/orders`
(lines 364-369): on a successful parse the resolved city is
`info.address.city` when truthy and `'All'` otherwise, fed to the
visibility test; when `JSON.parse` throws, the `catch` returns
`admin.city === 'All'`. -/
def orderVisible (adminCity : String) (i : Info) : Bool :=
  match i with
  | .snapshot snap => cityIsVisible adminCity (snap.address.city.getD "All")
  | .empty => cityIsVisible adminCity "All"
  | .malformed => adminCity == "All"

/-- `GET /api/admin/orders`: select all orders LEFT JOINed with the owning
user's email, `ORDER BY o.created_at DESC`, then filter by the per-row
visibility test against the requesting admin's city. -/
def listOrdersForAdmin (orders : List OrderRow) (users : List UserRow)
    (adminCity : String) : List (OrderRow × Option String) :=
  (((orders.mergeSort fun a b => decide (b.created_at ≤ a.created_at)).map
      fun o => (o, (users.find? fun u => u.id == o.user_id).map UserRow.email)).filter
    fun p => orderVisible adminCity p.1.info)

/-- The filter of `GET /api/menu` (line 208):
`r.active == 1 && (!city || r.city === city || r.city === 'All')`. -/
def menuVisible (cityFilter : Option String) (r : MenuItem) : Bool :=
  r.active == 1 &&
    (match cityFilter with
     | none => true
     | some c => r.city == c || r.city == "All")

/-- The `ORDER BY meal, id` key of the menu query, as a boolean total
preorder on rows. -/
def menuLe (a b : MenuItem) : Bool :=
  decide (a.meal < b.meal) || (a.meal == b.meal && decide (a.id ≤ b.id))

/-- `GET /api/menu`: select the whole `menu` table `ORDER BY meal, id`,
then keep active rows matching the optional `city` query parameter. -/
def publicList (menu : List MenuItem) (cityFilter : Option String) : List MenuItem :=
  (menu.mergeSort menuLe).filter (menuVisible cityFilter)

/-- `SELECT * FROM users WHERE email = ?` (email is UNIQUE, `db.get`
returns the single matching row if any). -/
def findUserByEmail (users : List UserRow) (email : String) : Option UserRow :=
  users.find? fun u => u.email == email

/-- `SELECT * FROM admins WHERE email = ?`. -/
def findAdminByEmail (admins : List AdminRow) (email : String) : Option AdminRow :=
  admins.find? fun a => a.email == email

/-- Successful user-login response body: `{ user: {id,email,name}, token }`. -/
structure LoginSuccess where
  user_id : Nat
  user_email : String
  user_name : String
  token : Claims
deriving Repr, DecidableEq

/-- `POST /api/login`: reject empty email/password, look the user up by
email, check the bcrypt hash, and sign `{ id, email, role: 'user' }`.
Both the unknown-email and the wrong-password branches answer
`400 invalid credentials`. -/
def login (vf : String → String → Bool) (users : List UserRow)
    (email password : String) : Except ApiError LoginSuccess :=
  if email == "" || password == "" then
    .error ⟨400, "email & password required"⟩
  else
    match findUserByEmail users email with
    | none => .error ⟨400, "invalid credentials"⟩
    | some u =>
      if vf password u.password_hash then
        .ok ⟨u.id, u.email, u.name, ⟨u.id, u.email, "user", none⟩⟩
      else
        .error ⟨400, "invalid credentials"⟩

/-- Successful admin-login response body:
`{ admin: {id,email,name,city}, token }`. -/
structure AdminLoginSuccess where
  admin_id : Nat
  admin_email : String
  admin_name : String
  admin_city : String
  token : Claims
deriving Repr, DecidableEq

/-- `POST /api/admin/login`: look the admin up by email, check the bcrypt
hash, and sign `{ id, email, role: 'admin' }` — the payload passed to
`signToken` carries no `city` key; the city travels only in the response
body's `admin` object. -/
def adminLogin (vf : String → String → Bool) (admins : List AdminRow)
    (email password : String) : Except ApiError AdminLoginSuccess :=
  match findAdminByEmail admins email with
  | none => .error ⟨400, "invalid credentials"⟩
  | some a =>
    if vf password a.password_hash then
      .ok ⟨a.id, a.email, a.name, a.city, ⟨a.id, a.email, "admin", none⟩⟩
    else
      .error ⟨400, "invalid credentials"⟩

/-- `POST /api/orders` (after `verifyAuthHeader` + `requireRole('user')`):
`if (!items || !address) return 400`; note that in JavaScript an empty
array is truthy, so only an absent/falsy `items` value fails the guard.
On success the order row is inserted with status `'pending'` and a
notification `New order <id> placed` targeted `address.city || 'All'`
is appended. -/
def createOrder (st : ServerState) (userId : Nat) (items : Option (List Item))
    (total : Option Int) (address : Option Address)
    (date time meal : Option String) (now : String) :
    ServerState × Except ApiError Nat :=
  match items, address with
  | some its, some addr =>
    let oid := st.nextOrderId
    let order : OrderRow :=
      ⟨oid, userId, total.getD 0, .snapshot ⟨its, addr, date, time, meal⟩, "pending", now⟩
    let notif : Notification :=
      ⟨"New order " ++ toString oid ++ " placed", now, addr.city.getD "All"⟩
    ({ orders := st.orders ++ [order],
       notifications := st.notifications ++ [notif],
       nextOrderId := oid + 1 },
     .ok oid)
  | _, _ => (st, .error ⟨400, "items & address required"⟩)

/-- `PUT /api/admin/orders/:id` behind `verifyAuthHeader` and
`requireRole('admin')`: with admin claims, run
`UPDATE orders SET status = ? WHERE id = ?` (a no-op on the table when no
row matches) and unconditionally append an `'All'`-targeted notification
`Order <id> status updated → <status>`; reply `{ ok: true }`.  No lookup
of the admin's city and no check against the order's city happens here. -/
def putAdminOrder (st : ServerState) (claims : Option Claims) (oid : Nat)
    (status now : String) : ServerState × Except ApiError Unit :=
  match claims with
  | none => (st, .error ⟨401, "missing authorization"⟩)
  | some c =>
    if c.role != "admin" then
      (st, .error ⟨403, "forbidden"⟩)
    else
      ({ st with
          orders := st.orders.map fun o =>
            if o.id == oid then { o with status := status } else o,
          notifications := st.notifications ++
            [⟨"Order " ++ toString oid ++ " status updated → " ++ status, now, "All"⟩] },
       .ok ())

/-- One `k = ?` assignment of the dynamically built
`UPDATE menu SET ...` of `PUT /api/admin/menu/:id`: every key of the
request body, including `id`, is interpolated into the SET clause. -/
inductive MenuField where
  | fid (v : String)
  | meal (v : String)
  | name_en (v : String)
  | name_hi (v : String)
  | price (v : Int)
  | description_en (v : String)
  | description_hi (v : String)
  | city (v : String)
  | available_from (v : String)
  | available_to (v : String)
  | active (v : Int)
deriving Repr, DecidableEq

/-- Apply one SET assignment to a row (`fid` is the `id` column). -/
def applyField (r : MenuItem) : MenuField → MenuItem
  | .fid v => { r with id := v }
  | .meal v => { r with meal := v }
  | .name_en v => { r with name_en := v }
  | .name_hi v => { r with name_hi := v }
  | .price v => { r with price := v }
  | .description_en v => { r with description_en := v }
  | .description_hi v => { r with description_hi := v }
  | .city v => { r with city := v }
  | .available_from v => { r with available_from := v }
  | .available_to v => { r with available_to := v }
  | .active v => { r with active := v }

/-- Does this SET assignment target the `id` column? -/
def setsId : MenuField → Bool
  | .fid _ => true
  | _ => false

/-- `PUT /api/admin/menu/:id`: `UPDATE menu SET <k1> = ?, ... WHERE id = ?`
with one assignment per key of the request body, applied left to right to
every row whose (original) `id` equals the path parameter. -/
def updateMenu (menu : List MenuItem) (id : String) (fields : List MenuField) :
    List MenuItem :=
  menu.map fun r => if r.id == id then fields.foldl applyField r else r

/-! Concrete fixtures used by counterexamples and witnesses, mirroring the
sample data seeded by `initDb` (a Delhi address, the `l1` lunch item, the
default Delhi-scoped manager). -/

/-- A request address with city Delhi (the checkout shape of the frontend). -/
def addrDelhi : Address :=
  ⟨some "Guest", some "N/A", some "N/A", some "000000", some "Delhi"⟩

/-- An empty store whose next order id is 1. -/
def st0 : ServerState := ⟨[], [], 1⟩

/-- An order whose snapshot address city is Delhi. -/
def orderDelhi : OrderRow :=
  ⟨1, 1, 85, .snapshot ⟨[⟨"l1", 85⟩], addrDelhi, none, none, none⟩, "pending", "t0"⟩

/-- An order whose stored `info` text does not parse as JSON. -/
def orderMalformed : OrderRow := ⟨3, 1, 60, .malformed, "pending", "t0"⟩

/-- The default Delhi-scoped manager account. -/
def adminDelhi : AdminRow :=
  ⟨2, "manager@mummatiffin.com", "h2", "City Manager", "Delhi", "t0"⟩

/-- A Pune-scoped administrator account. -/
def adminPune : AdminRow :=
  ⟨7, "pune@mummatiffin.com", "h7", "Pune Manager", "Pune", "t0"⟩

/-- A registered user. -/
def userA : UserRow := ⟨1, "a@b.com", "pw1", "A", "t0"⟩

/-- The seeded `b1` menu row. -/
def itemB1 : MenuItem :=
  ⟨"b1", "breakfast", "Aloo Paratha + Curd", "", 60, "Hearty potato paratha", "",
    "Delhi", "06:00", "09:00", 1⟩

/-!  Claims. -/

/-- C1: the visibility predicate used by admin order listing returns true
iff `adminCity = "All"` or `resourceCity = "All"` or the two are equal; in
particular an "All"-scoped administrator sees every resource, and a
scoped administrator with city C does not see a resource with city
R ≠ C, R ≠ "All". -/
theorem cityIsVisible_spec :
    (∀ a r, cityIsVisible a r = true ↔ (a = "All" ∨ r = "All" ∨ a = r)) ∧
    (∀ r, cityIsVisible "All" r = true) ∧
    (∀ a r, a ≠ "All" → r ≠ a → r ≠ "All" → cityIsVisible a r = false) := by
  refine ⟨?_, ?_, ?_⟩
  · intro a r
    simp only [cityIsVisible, Bool.or_eq_true, beq_iff_eq]
    tauto
  · intro r
    simp [cityIsVisible]
  · intro a r h1 h2 h3
    simp only [cityIsVisible, Bool.or_eq_false_iff, beq_eq_false_iff_ne, ne_eq]
    exact ⟨⟨h1, fun h => h2 h.symm⟩, h3⟩

/-- Witness for C1 at a concrete input: the Pune scope does not see a
Delhi resource. -/
theorem cityIsVisible_spec_witness : cityIsVisible "Pune" "Delhi" = false :=
  cityIsVisible_spec.2.2 "Pune" "Delhi" (by decide) (by decide) (by decide)

/-- C4 counterexample: an order request whose items list is present but
EMPTY passes the `!items` guard (an empty array is truthy in JavaScript),
so the operation succeeds and an order IS created, contradicting the
claim that it fails with InvalidInput and creates nothing. -/
theorem createOrder_emptyItems_counterexample :
    (createOrder st0 1 (some []) (some 85) (some addrDelhi) none none none "t").2 =
      Except.ok 1 ∧
    (createOrder st0 1 (some []) (some 85) (some addrDelhi) none none none "t").1.orders ≠
      [] := by
  exact ⟨rfl, by decide⟩

/-- C4 amended: the operation fails with InvalidInput (400) and leaves the
store unchanged when items is ABSENT or address is absent; a present but
empty items list is not rejected. -/
theorem createOrder_invalidInput (st : ServerState) (userId : Nat)
    (items : Option (List Item)) (total : Option Int) (address : Option Address)
    (date time meal : Option String) (now : String)
    (h : items = none ∨ address = none) :
    createOrder st userId items total address date time meal now =
      (st, Except.error ⟨400, "items & address required"⟩) := by
  rcases h with h | h
  · subst h; cases address <;> rfl
  · subst h; cases items <;> rfl

/-- Witness for C4 (amended) at a concrete input: absent items. -/
theorem createOrder_invalidInput_witness :
    createOrder st0 1 none (some 85) (some addrDelhi) none none none "t" =
      (st0, Except.error ⟨400, "items & address required"⟩) :=
  createOrder_invalidInput st0 1 none (some 85) (some addrDelhi) none none none "t"
    (Or.inl rfl)

/-- C5: every successful createOrder call persists exactly one new order
with status "pending" and appends exactly one notification, targeted at
the supplied address's city (or "All" when absent), announcing the new
order id. -/
theorem createOrder_success (st : ServerState) (userId : Nat) (its : List Item)
    (total : Option Int) (addr : Address) (date time meal : Option String)
    (now : String) :
    createOrder st userId (some its) total (some addr) date time meal now =
      ({ orders := st.orders ++
            [⟨st.nextOrderId, userId, total.getD 0,
              .snapshot ⟨its, addr, date, time, meal⟩, "pending", now⟩],
         notifications := st.notifications ++
            [⟨"New order " ++ toString st.nextOrderId ++ " placed", now,
              addr.city.getD "All"⟩],
         nextOrderId := st.nextOrderId + 1 },
       Except.ok st.nextOrderId) := rfl

/-- C2 counterexample: administrator 7 is scoped "Pune", order 1's
embedded address city is "Delhi" (neither is "All"), yet the status
update by that administrator goes through and mutates the order. -/
theorem putAdminOrder_cityScope_counterexample :
    adminPune.city = "Pune" ∧
    orderDelhi.info = .snapshot ⟨[⟨"l1", 85⟩], addrDelhi, none, none, none⟩ ∧
    addrDelhi.city = some "Delhi" ∧
    (putAdminOrder ⟨[orderDelhi], [], 2⟩
        (some ⟨adminPune.id, adminPune.email, "admin", none⟩) 1
        "delivered" "t1").1.orders.map OrderRow.status = ["delivered"] :=
  ⟨rfl, rfl, rfl, rfl⟩

/-- C2 amended: a status update by ANY authenticated administrator-role
caller succeeds and rewrites the status of every order with the given id,
regardless of the administrator's city scope and of the order's embedded
address city — the handler performs no city check at all. -/
theorem putAdminOrder_noCityCheck (st : ServerState) (c : Claims) (oid : Nat)
    (status now : String) (hrole : c.role = "admin") :
    (putAdminOrder st (some c) oid status now).1.orders =
      st.orders.map (fun o => if o.id == oid then { o with status := status } else o) ∧
    (putAdminOrder st (some c) oid status now).2 = Except.ok () := by
  constructor <;> simp [putAdminOrder, hrole]

/-- Witness for C2 (amended) at a concrete input: the Pune-scoped
administrator's claims update the Delhi order. -/
theorem putAdminOrder_noCityCheck_witness :
    (putAdminOrder ⟨[orderDelhi], [], 2⟩
        (some ⟨adminPune.id, adminPune.email, "admin", none⟩) 1
        "delivered" "t1").1.orders =
      [orderDelhi].map (fun o => if o.id == 1 then { o with status := "delivered" } else o) ∧
    (putAdminOrder ⟨[orderDelhi], [], 2⟩
        (some ⟨adminPune.id, adminPune.email, "admin", none⟩) 1
        "delivered" "t1").2 = Except.ok () :=
  putAdminOrder_noCityCheck ⟨[orderDelhi], [], 2⟩
    ⟨adminPune.id, adminPune.email, "admin", none⟩ 1 "delivered" "t1" rfl

/-- C7 counterexample: a successful login of the Delhi-scoped manager
yields a token whose verified claims carry NO city (the payload signed by
the handler is `{ id, email, role }` only), so the claims do not contain
the administrator's city scope "Delhi". -/
theorem adminLogin_tokenCity_counterexample :
    (adminLogin (fun p h => p == h) [adminDelhi] "manager@mummatiffin.com" "h2").map
        (fun s => (verifyToken s.token).city) = Except.ok none ∧
    adminDelhi.city = "Delhi" ∧ (none : Option String) ≠ some "Delhi" :=
  ⟨rfl, rfl, by decide⟩

/-- C7 amended: a successful administrator login issues a token whose
claims embed the identity id, email and the role "admin" but NOT the
city; the city scope is delivered only in the response body next to the
token. -/
theorem adminLogin_claims (vf : String → String → Bool) (admins : List AdminRow)
    (email password : String) (a : AdminRow)
    (hfind : findAdminByEmail admins email = some a)
    (hv : vf password a.password_hash = true) :
    adminLogin vf admins email password =
      Except.ok ⟨a.id, a.email, a.name, a.city,
        verifyToken ⟨a.id, a.email, "admin", none⟩⟩ := by
  simp [adminLogin, hfind, hv, verifyToken]

/-- Witness for C7 (amended) at a concrete input. -/
theorem adminLogin_claims_witness :
    adminLogin (fun p h => p == h) [adminDelhi] "manager@mummatiffin.com" "h2" =
      Except.ok ⟨adminDelhi.id, adminDelhi.email, adminDelhi.name, adminDelhi.city,
        verifyToken ⟨adminDelhi.id, adminDelhi.email, "admin", none⟩⟩ :=
  adminLogin_claims (fun p h => p == h) [adminDelhi] "manager@mummatiffin.com" "h2"
    adminDelhi (by decide) (by decide)

/-- C8: a login attempt with an email not in the store and a login attempt
with a stored email but a non-matching password hash fail with literally
the same error value — status 400 and message "invalid credentials" — so
the two cases are indistinguishable to the caller. -/
theorem login_indistinguishable (vf : String → String → Bool) (users : List UserRow)
    (e1 p1 e2 p2 : String)
    (h1e : e1 ≠ "") (h1p : p1 ≠ "") (h2e : e2 ≠ "") (h2p : p2 ≠ "")
    (h1 : findUserByEmail users e1 = none)
    (h2 : ∃ u, findUserByEmail users e2 = some u ∧ vf p2 u.password_hash = false) :
    login vf users e1 p1 = login vf users e2 p2 ∧
    login vf users e1 p1 = Except.error ⟨400, "invalid credentials"⟩ := by
  obtain ⟨u, hu, hv⟩ := h2
  constructor <;> simp [login, h1e, h1p, h2e, h2p, h1, hu, hv]

/-- Witness for C8 at a concrete input: unknown email vs wrong password
against the same one-user store. -/
theorem login_indistinguishable_witness :
    login (fun p h => p == h) [userA] "x@y.com" "pw1" =
        login (fun p h => p == h) [userA] "a@b.com" "bad" ∧
    login (fun p h => p == h) [userA] "x@y.com" "pw1" =
      Except.error ⟨400, "invalid credentials"⟩ :=
  login_indistinguishable (fun p h => p == h) [userA] "x@y.com" "pw1" "a@b.com" "bad"
    (by decide) (by decide) (by decide) (by decide) (by decide)
    ⟨userA, by decide, by decide⟩

/-- C10: a status update naming an order id that exists nowhere in the
store still replies ok, leaves the orders table unchanged, and appends
exactly one "All"-targeted notification announcing the status change for
that id. -/
theorem putAdminOrder_missingOrder (st : ServerState) (c : Claims) (oid : Nat)
    (status now : String) (hrole : c.role = "admin")
    (h : ∀ o ∈ st.orders, o.id ≠ oid) :
    (putAdminOrder st (some c) oid status now).2 = Except.ok () ∧
    (putAdminOrder st (some c) oid status now).1.orders = st.orders ∧
    (putAdminOrder st (some c) oid status now).1.notifications =
      st.notifications ++
        [⟨"Order " ++ toString oid ++ " status updated → " ++ status, now, "All"⟩] := by
  refine ⟨?_, ?_, ?_⟩ <;> simp [putAdminOrder, hrole]
  conv_rhs => rw [← List.map_id st.orders]
  exact List.map_congr_left fun o ho => by simp [h o ho]

/-- Witness for C10 at a concrete input: order id 5 is absent from a
store holding only order 1. -/
theorem putAdminOrder_missingOrder_witness :
    (putAdminOrder ⟨[orderDelhi], [], 2⟩ (some ⟨7, "a@x", "admin", none⟩) 5
        "delivered" "t1").2 = Except.ok () ∧
    (putAdminOrder ⟨[orderDelhi], [], 2⟩ (some ⟨7, "a@x", "admin", none⟩) 5
        "delivered" "t1").1.orders = [orderDelhi] ∧
    (putAdminOrder ⟨[orderDelhi], [], 2⟩ (some ⟨7, "a@x", "admin", none⟩) 5
        "delivered" "t1").1.notifications =
      [] ++ [⟨"Order " ++ toString 5 ++ " status updated → " ++ "delivered", "t1", "All"⟩] :=
  putAdminOrder_missingOrder ⟨[orderDelhi], [], 2⟩ ⟨7, "a@x", "admin", none⟩ 5
    "delivered" "t1" rfl (by decide)

/-- C3 counterexample: an administrator scoped "Pune" does NOT include an
order whose stored info snapshot fails to parse — the `catch` branch
admits it only for "All"-scoped administrators, so the listing is empty. -/
theorem listOrdersForAdmin_malformed_counterexample :
    listOrdersForAdmin [orderMalformed] [] "Pune" = [] ∧ orderMalformed.info = .malformed := by
  constructor
  · unfold listOrdersForAdmin
    rw [List.mergeSort_singleton]
    decide
  · rfl

/-- C3 amended: an order whose stored info snapshot fails to parse appears
in the admin listing if and only if the administrator's scope is exactly
"All"; for every other scope it is excluded (the parse-failure fallback is
`admin.city === 'All'`, not a resolved city of "All"). -/
theorem listOrdersForAdmin_malformed (orders : List OrderRow) (users : List UserRow)
    (adminCity : String) (r : OrderRow) (hr : r ∈ orders) (hm : r.info = .malformed) :
    ((r, (users.find? fun u => u.id == r.user_id).map UserRow.email) ∈
        listOrdersForAdmin orders users adminCity) ↔ adminCity = "All" := by
  unfold listOrdersForAdmin
  constructor
  · intro hmem
    have hp := (List.mem_filter.mp hmem).2
    simpa [orderVisible, hm] using hp
  · intro hA
    subst hA
    refine List.mem_filter.mpr ⟨?_, ?_⟩
    · exact List.mem_map_of_mem _ (List.mem_mergeSort.mpr hr)
    · simp [orderVisible, hm]

/-- Witness for C3 (amended) at a concrete input: the "All" scope does
include the unparsable order. -/
theorem listOrdersForAdmin_malformed_witness :
    ((orderMalformed,
        (List.find? (fun u => u.id == orderMalformed.user_id) []).map UserRow.email) ∈
      listOrdersForAdmin [orderMalformed] [] "All") ↔ "All" = "All" :=
  listOrdersForAdmin_malformed [orderMalformed] [] "All" orderMalformed
    (by decide) rfl

/-- The `ORDER BY meal, id` key is transitive. -/
theorem menuLe_trans (a b c : MenuItem) (hab : menuLe a b = true)
    (hbc : menuLe b c = true) : menuLe a c = true := by
  simp only [menuLe, Bool.or_eq_true, Bool.and_eq_true, decide_eq_true_eq,
    beq_iff_eq] at *
  rcases hab with h1 | ⟨h1, h1'⟩ <;> rcases hbc with h2 | ⟨h2, h2'⟩
  · exact Or.inl (lt_trans h1 h2)
  · exact Or.inl (h2 ▸ h1)
  · exact Or.inl (h1 ▸ h2)
  · exact Or.inr ⟨h1.trans h2, le_trans h1' h2'⟩

/-- The `ORDER BY meal, id` key is total. -/
theorem menuLe_total (a b : MenuItem) : menuLe a b || menuLe b a := by
  simp only [menuLe, Bool.or_eq_true, Bool.and_eq_true, decide_eq_true_eq,
    beq_iff_eq]
  rcases lt_trichotomy a.meal b.meal with h | h | h
  · exact Or.inl (Or.inl h)
  · rcases le_total a.id b.id with h' | h'
    · exact Or.inl (Or.inr ⟨h, h'⟩)
    · exact Or.inr (Or.inr ⟨h.symm, h'⟩)
  · exact Or.inr (Or.inl h)

/-- C6: the public menu listing is a permutation of exactly the rows
passing the active/city filter; it is sorted by meal category then
identifier; and a row is listed iff it is a stored row that is active and,
under a city filter, carries that city or "All". -/
theorem publicList_spec (menu : List MenuItem) (cf : Option String) :
    List.Perm (publicList menu cf) (menu.filter (menuVisible cf)) ∧
    List.Pairwise (fun a b => menuLe a b = true) (publicList menu cf) ∧
    ∀ x, x ∈ publicList menu cf ↔
      (x ∈ menu ∧ x.active = 1 ∧
        match cf with
        | none => True
        | some c => x.city = c ∨ x.city = "All") := by
  refine ⟨?_, ?_, ?_⟩
  · exact (List.mergeSort_perm menu menuLe).filter (menuVisible cf)
  · exact (@List.sorted_mergeSort MenuItem menuLe menuLe_trans menuLe_total menu).filter
      (menuVisible cf)
  · intro x
    simp only [publicList, List.mem_filter, List.mem_mergeSort, menuVisible,
      Bool.and_eq_true, beq_iff_eq, Bool.or_eq_true]
    cases cf <;> simp [and_assoc]

/-- One SET assignment that does not target the id column leaves the
row's identifier unchanged, hence so does a whole left fold of them. -/
theorem foldl_applyField_id (fields : List MenuField) (r : MenuItem)
    (h : ∀ f ∈ fields, setsId f = false) :
    (fields.foldl applyField r).id = r.id := by
  induction fields generalizing r with
  | nil => rfl
  | cons f fs ih =>
    have hf := h f (List.mem_cons_self f fs)
    have step : (applyField r f).id = r.id := by
      cases f <;> simp_all [setsId, applyField]
    rw [List.foldl_cons, ih (applyField r f) fun g hg => h g (List.mem_cons_of_mem f hg),
      step]

/-- C9 counterexample: a partial update whose body supplies an id field
rewrites the stored identifier — after the update the item sits under
"z9", no longer under "b1". -/
theorem updateMenu_id_counterexample :
    (updateMenu [itemB1] "b1" [MenuField.fid "z9"]).map MenuItem.id = ["z9"] ∧
    ("z9" : String) ≠ "b1" :=
  ⟨rfl, by decide⟩

/-- C9 amended: the identifier of every stored item is unchanged by the
update operation PROVIDED the request body supplies no id field; the
handler interpolates every supplied key into the SET clause, so a
supplied id field does rewrite the identifier. -/
theorem updateMenu_preservesId (menu : List MenuItem) (id : String)
    (fields : List MenuField) (h : ∀ f ∈ fields, setsId f = false) :
    (updateMenu menu id fields).map MenuItem.id = menu.map MenuItem.id := by
  unfold updateMenu
  rw [List.map_map]
  apply List.map_congr_left
  intro r hr
  simp only [Function.comp_apply]
  by_cases hid : (r.id == id) = true
  · rw [if_pos hid]
    exact foldl_applyField_id fields r h
  · rw [if_neg hid]

/-- Witness for C9 (amended) at a concrete input: a price-only update
keeps the identifier. -/
theorem updateMenu_preservesId_witness :
    (updateMenu [itemB1] "b1" [MenuField.price 70]).map MenuItem.id =
      [itemB1].map MenuItem.id :=
  updateMenu_preservesId [itemB1] "b1" [MenuField.price 70] (by decide)

end MummaTiffin
